import Mathlib

/-!
Verification of the video-transcoding pipeline of the Youtube-clone repository.

The development shallowly embeds the two services that own the video lifecycle:

* the dispatcher (`firebase-functions`, file `src/unnamed/part_001`):
  record creation (`POST /videos`), manual processing requests
  (`POST /videos/:videoId/process`) and the storage-finalize trigger
  (`onRawVideoUploaded`);
* the transcode worker (`video-processing-service/src/index.ts`):
  the `/process-video` handler (`handleJob`).

Modelling conventions:
* The Firestore document store is an association list from document id to a
  document whose fields are all optional (absent = not present in the
  document).  `set` with `merge: true` is per-field overwrite with deep merge
  of the `renditions` map field, as Firestore does.
* Server timestamps (`createdAt` / `updatedAt`) are not modelled; no claim
  mentions them.
* The Pub/Sub body reaching the worker is modelled after base64/JSON decoding:
  `WorkerRequest.body` is `none` when `message.data` is missing and
  `some msg` when it decodes to the job message `msg`; a JSON field that is
  missing or empty both appear as the empty string, matching the JS
  falsiness check `!payload.videoId`.
* External I/O (blob download, ffmpeg transcode, blob upload) is modelled by
  an `Oracle` giving, per operation, `none` for success or `some m` for a
  throw with message `m` (the `.message` of the thrown `Error`).
* Local temporary files are tracked by name: a file counts as created when
  the operation that writes it succeeds, and the worker result records which
  files the handler deleted.
-/

/-- One rendition entry, as the worker stores it under `renditions[key]`. -/
structure Rendition where
  path : String
  playbackUrl : String
  height : Nat
deriving DecidableEq

/-- A Firestore video document.  Every field is optional: `none` means the
field is absent from the stored document. -/
structure VideoDoc where
  title : Option String
  description : Option String
  rawPath : Option String
  status : Option String
  renditions : Option (List (String × Rendition))
  processedPath : Option String
  playbackUrl : Option String
  error : Option String
  uploadedBy : Option String
  uploaderEmail : Option String
deriving DecidableEq

/-- The document with no fields set. -/
def emptyDoc : VideoDoc :=
  ⟨none, none, none, none, none, none, none, none, none, none⟩

/-- Firestore merge on a single optional field: a field present in the update
overwrites, an absent field keeps the stored value. -/
def oMerge {α : Type} : Option α → Option α → Option α
  | some a, _ => some a
  | none, b => b

/-- Key lookup test on the renditions map. -/
def hasRendKey (l : List (String × Rendition)) (k : String) : Bool :=
  l.any (fun kv => kv.1 == k)

/-- Firestore deep merge of the `renditions` map field: keys present in the
update overwrite, other stored keys are retained. -/
def mergeRenditions (old nu : List (String × Rendition)) : List (String × Rendition) :=
  old.filter (fun kv => !(hasRendKey nu kv.1)) ++ nu

/-- `set(values, { merge: true })` on one document: the update's present
fields overwrite, absent fields keep the stored value; the `renditions` map
is deep-merged. -/
def mergeDoc (d u : VideoDoc) : VideoDoc :=
  { title := oMerge u.title d.title,
    description := oMerge u.description d.description,
    rawPath := oMerge u.rawPath d.rawPath,
    status := oMerge u.status d.status,
    renditions :=
      match u.renditions, d.renditions with
      | none, o => o
      | some nu, none => some nu
      | some nu, some o => some (mergeRenditions o nu),
    processedPath := oMerge u.processedPath d.processedPath,
    playbackUrl := oMerge u.playbackUrl d.playbackUrl,
    error := oMerge u.error d.error,
    uploadedBy := oMerge u.uploadedBy d.uploadedBy,
    uploaderEmail := oMerge u.uploaderEmail d.uploaderEmail }

/-- The Firestore `videos` collection: id-keyed documents. -/
def Store : Type := List (String × VideoDoc)

instance : DecidableEq Store := by
  unfold Store
  infer_instance

/-- `doc(id).get()`. -/
def getDoc : Store → String → Option VideoDoc
  | [], _ => none
  | (k, d) :: rest, id => if k = id then some d else getDoc rest id

/-- `doc(id).set(u)` without merge: full overwrite (creates the document when
absent). -/
def setDoc : Store → String → VideoDoc → Store
  | [], id, u => [(id, u)]
  | (k, d) :: rest, id, u => if k = id then (k, u) :: rest else (k, d) :: setDoc rest id u

/-- `doc(id).set(u, { merge: true })`: merge into the stored document
(creates the document when absent). -/
def setMerge : Store → String → VideoDoc → Store
  | [], id, u => [(id, mergeDoc emptyDoc u)]
  | (k, d) :: rest, id, u =>
    if k = id then (k, mergeDoc d u) :: rest else (k, d) :: setMerge rest id u

/-- JS `String.prototype.startsWith`. -/
def strStartsWith (s pat : String) : Bool :=
  pat.data.isPrefixOf s.data

/-- JS `String.prototype.replace` with a string pattern and empty replacement:
removes the first occurrence of `pat`. -/
def replaceFirstChars (pat : List Char) : List Char → List Char
  | [] => []
  | c :: rest =>
    if pat.isPrefixOf (c :: rest) then (c :: rest).drop pat.length
    else c :: replaceFirstChars pat rest

/-- String wrapper for `replaceFirstChars`. -/
def replaceFirstStr (s pat : String) : String :=
  String.mk (replaceFirstChars pat.data s.data)

/-- Node `path.basename`: the part of the path after the last slash. -/
def basenameStr (s : String) : String :=
  String.mk ((s.data.reverse.takeWhile (fun c => c != '/')).reverse)

/-- The job message published to the processing topic and decoded by the
worker (`{videoId, inputBucket, inputObject, outputBucket}`). -/
structure JobMsg where
  videoId : String
  inputBucket : String
  inputObject : String
  outputBucket : Option String
deriving DecidableEq

/-- One observable side effect of a dispatcher entry point, in program
order. -/
inductive Effect where
  | mergeW : String → VideoDoc → Effect
  | publishJob : JobMsg → Effect
deriving DecidableEq

/-- Environment of the firebase-functions service
(`RAW_VIDEOS_BUCKET`, `PROCESSED_VIDEOS_BUCKET`, `VIDEO_PROCESSING_TOPIC`);
`none` models an unset variable. -/
structure FnConfig where
  rawBucket : Option String
  outputBucket : Option String
  processingTopic : Option String
deriving DecidableEq

/-- Result of one dispatcher invocation: the store afterwards, the ordered
store-merge / publish effects it performed, and the HTTP status it answered
(the finalize trigger has no caller; its code is a placeholder 200). -/
structure FnResult where
  store : Store
  trace : List Effect
  statusCode : Nat

/-- The `status=queued` merge both dispatcher entry points perform. -/
def queuedUpdate : VideoDoc :=
  { emptyDoc with status := some "queued" }

/-- Body of `POST /videos` (`{title, description?, filename, contentType?}`;
`contentType` only affects the signed URL, which is external). -/
structure CreateBody where
  title : String
  description : Option String
  filename : String

/-- The character filter of `filename.replace(/[^a-zA-Z0-9_.-]/g, '_')`. -/
def safeFilenameChar (c : Char) : Char :=
  if c.isAlphanum ∨ c = '_' ∨ c = '.' ∨ c = '-' then c else '_'

/-- `filename.replace(/[^a-zA-Z0-9_.-]/g, '_')`, applied per character. -/
def safeFilename (s : String) : String :=
  String.mk (s.data.map safeFilenameChar)

/-- `POST /videos` (record creation, `src/unnamed/part_001` lines 111-156).
`user` is the decoded token `(uid, email)` provided by `requireAuth`
(`none` = authentication failed); `newId` is the id Firestore draws for
`videoRef`.  The signed-URL call is external and not modelled. -/
def createVideo (cfg : FnConfig) (user : Option (String × String)) (body : CreateBody)
    (newId : String) (s : Store) : FnResult :=
  match cfg.rawBucket with
  | none => ⟨s, [], 500⟩
  | some rb =>
    match user with
    | none => ⟨s, [], 401⟩
    | some (uid, email) =>
      if body.title = "" ∨ body.filename = "" then ⟨s, [], 400⟩
      else
        let safe := safeFilename body.filename
        let objectPath := "raw/" ++ newId ++ "-" ++ safe
        let doc : VideoDoc :=
          { emptyDoc with
            title := some body.title,
            description := some (body.description.getD ""),
            rawPath := some ("gs://" ++ rb ++ "/" ++ objectPath),
            status := some "uploading",
            uploadedBy := some uid,
            uploaderEmail := some email }
        ⟨setDoc s newId doc, [], 201⟩

/-- `POST /videos/:videoId/process` (`src/unnamed/part_001` lines 158-199).
`authed` is whether `requireAuth` accepted the bearer token.  A missing
`VIDEO_PROCESSING_TOPIC` makes `publishProcessingJob` throw after the queued
merge already happened (the error middleware then answers 500). -/
def requestProcessing (cfg : FnConfig) (authed : Bool) (videoId : String) (s : Store) :
    FnResult :=
  if authed then
    match cfg.rawBucket with
    | none => ⟨s, [], 500⟩
    | some rb =>
      match getDoc s videoId with
      | none => ⟨s, [], 404⟩
      | some doc =>
        match doc.rawPath with
        | none => ⟨s, [], 400⟩
        | some rp =>
          if strStartsWith rp ("gs://" ++ rb ++ "/") then
            let objectPath := replaceFirstStr rp ("gs://" ++ rb ++ "/")
            let s1 := setMerge s videoId queuedUpdate
            match cfg.processingTopic with
            | none => ⟨s1, [Effect.mergeW videoId queuedUpdate], 500⟩
            | some _ =>
              ⟨s1,
               [Effect.mergeW videoId queuedUpdate,
                Effect.publishJob ⟨videoId, rb, objectPath, cfg.outputBucket⟩],
               200⟩
          else ⟨s, [], 400⟩
  else ⟨s, [], 401⟩

/-- The storage-finalize event (`event.data.bucket`, `event.data.name`). -/
structure StorageEvent where
  bucket : String
  name : String

/-- The anchored lazy regex of `parseVideoIdFromRawObject` (pattern
`caret raw slash ([caret-slash]+?) dash`): after `raw/`, the lazy capture is
everything up to the first `-` past the first captured character; it must
contain no slash. -/
def findLazyCapture : List Char → List Char → Option (List Char)
  | _, [] => none
  | acc, c :: rest =>
    if c = '-' then some acc.reverse
    else if c = '/' then none
    else findLazyCapture (c :: acc) rest

/-- `parseVideoIdFromRawObject(name)`. -/
def parseVideoIdFromRawObject (name : String) : Option String :=
  if strStartsWith name "raw/" then
    match (String.mk (name.data.drop 4)).data with
    | [] => none
    | c0 :: rest =>
      if c0 = '/' then none
      else (findLazyCapture [c0] rest).map String.mk
  else none

/-- Video-id resolution of `onRawVideoUploaded`: the filename convention
first, else the first stored document whose `rawPath` equals the uploaded
object's path (the `limit(1)` Firestore query, taken in store order). -/
def resolveUploadVideoId (ev : StorageEvent) (s : Store) : Option String :=
  match parseVideoIdFromRawObject ev.name with
  | some v => some v
  | none =>
    (List.find? (fun kv => kv.2.rawPath == some ("gs://" ++ ev.bucket ++ "/" ++ ev.name)) s).map
      (fun kv => kv.1)

/-- The `onRawVideoUploaded` storage-finalize trigger
(`src/unnamed/part_001` lines 216-278).  Every early return (wrong bucket,
unresolvable id, missing document, duplicate status) leaves the store
untouched and publishes nothing; a missing topic makes the publish throw,
which the surrounding try/catch only logs. -/
def onRawVideoUploaded (cfg : FnConfig) (ev : StorageEvent) (s : Store) : FnResult :=
  match cfg.rawBucket with
  | none => ⟨s, [], 200⟩
  | some rb =>
    if ev.bucket = "" ∨ ev.name = "" ∨ ev.bucket ≠ rb ∨ ¬ strStartsWith ev.name "raw/" then
      ⟨s, [], 200⟩
    else
      match resolveUploadVideoId ev s with
      | none => ⟨s, [], 200⟩
      | some videoId =>
        match getDoc s videoId with
        | none => ⟨s, [], 200⟩
        | some doc =>
          if doc.status = some "queued" ∨ doc.status = some "processing" ∨
              doc.status = some "ready" then
            ⟨s, [], 200⟩
          else
            let s1 := setMerge s videoId queuedUpdate
            match cfg.processingTopic with
            | none => ⟨s1, [Effect.mergeW videoId queuedUpdate], 200⟩
            | some _ =>
              ⟨s1,
               [Effect.mergeW videoId queuedUpdate,
                Effect.publishJob ⟨videoId, ev.bucket, ev.name, cfg.outputBucket⟩],
               200⟩

/-- Environment of the video-processing service (`OUTPUT_BUCKET`,
`PUBSUB_VERIFICATION_TOKEN`); `now` stands for the `Date.now()` value used in
temporary file names. -/
structure WorkerConfig where
  outputBucket : Option String
  jobToken : Option String
  now : Nat
deriving DecidableEq

/-- A push request to `/process-video`: the `authorization` header and the
Pub/Sub body after base64/JSON decoding (`none` = `message.data` missing). -/
structure WorkerRequest where
  authorization : Option String
  body : Option JobMsg
deriving DecidableEq

/-- Outcomes of the external blob/transcoder operations during one attempt:
`none` is success, `some m` is a throw whose `Error.message` is `m`. -/
structure Oracle where
  downloadOk : Option String
  transcodeOk : Nat → Option String
  uploadOk : Nat → Option String

/-- Result of one `/process-video` invocation: the store afterwards, the
HTTP response, and the local temporary files the attempt created and the
handler deleted. -/
structure WorkerResult where
  store : Store
  statusCode : Nat
  body : String
  created : List String
  deleted : List String

/-- The configured resolution set (`renditionHeights = [360, 720]`). -/
def renditionHeights : List Nat := [360, 720]

/-- `parsePubSubPayload`: requires `message.data` and non-empty `videoId`,
`inputBucket`, `inputObject`. -/
def parsePubSubPayload (body : Option JobMsg) : Except String JobMsg :=
  match body with
  | none => Except.error "Missing Pub/Sub message data"
  | some p =>
    if p.videoId = "" ∨ p.inputBucket = "" ∨ p.inputObject = "" then
      Except.error "Job payload is missing required fields"
    else Except.ok p

/-- The optional shared-token check at the top of the handler: with a token
configured, the `authorization` header minus a first `Bearer ` must equal
it. -/
def authPasses (cfg : WorkerConfig) (req : WorkerRequest) : Bool :=
  match cfg.jobToken with
  | none => true
  | some tok => replaceFirstStr (req.authorization.getD "") "Bearer " == tok

/-- `payload.outputBucket || outputBucket`, then the `!targetBucket`
guard (JS falsiness makes the empty string fall through / fail). -/
def resolveTargetBucket (p : JobMsg) (cfg : WorkerConfig) : Option String :=
  let tb :=
    match p.outputBucket with
    | some b => if b = "" then cfg.outputBucket else some b
    | none => cfg.outputBucket
  match tb with
  | some b => if b = "" then none else some b
  | none => none

/-- `path.join(os.tmpdir(), "raw-" + Date.now() + "-" + basename(inputObject))`. -/
def localInputPath (cfg : WorkerConfig) (p : JobMsg) : String :=
  "/tmp/raw-" ++ toString cfg.now ++ "-" ++ basenameStr p.inputObject

/-- The output object key `processed/<videoId>/<height>p.mp4`. -/
def outputObjectName (p : JobMsg) (h : Nat) : String :=
  "processed/" ++ p.videoId ++ "/" ++ toString h ++ "p.mp4"

/-- `path.join(os.tmpdir(), "processed-" + videoId + "-" + height + "p-" + Date.now() + ".mp4")`. -/
def localOutputPathW (cfg : WorkerConfig) (p : JobMsg) (h : Nat) : String :=
  "/tmp/processed-" ++ p.videoId ++ "-" ++ toString h ++ "p-" ++ toString cfg.now ++ ".mp4"

/-- The rendition object recorded after a successful upload of height `h`. -/
def mkRendition (tb : String) (p : JobMsg) (h : Nat) : Rendition :=
  { path := "gs://" ++ tb ++ "/" ++ outputObjectName p h,
    playbackUrl := "https://storage.googleapis.com/" ++ tb ++ "/" ++ outputObjectName p h,
    height := h }

/-- The `status=processing` merge at the start of an attempt (it also writes
`rawPath` from the job payload; it touches no other field). -/
def processingUpdate (p : JobMsg) : VideoDoc :=
  { emptyDoc with
    status := some "processing",
    rawPath := some ("gs://" ++ p.inputBucket ++ "/" ++ p.inputObject) }

/-- The `status=failed` merge of the catch handler. -/
def failedUpdate (msg : String) : VideoDoc :=
  { emptyDoc with status := some "failed", error := some msg }

/-- Rendition lookup (`renditions['720p']`). -/
def lookupRend (l : List (String × Rendition)) (k : String) : Option Rendition :=
  (List.find? (fun kv => kv.1 == k) l).map (fun kv => kv.2)

/-- The `status=ready` merge: renditions map, and `processedPath` /
`playbackUrl` preferring the `720p` entry over the `360p` one (the JS `||`
falls back on `undefined`; the constructed paths are never empty). -/
def readyUpdate (rs : List (String × Rendition)) : VideoDoc :=
  { emptyDoc with
    status := some "ready",
    renditions := some rs,
    processedPath := oMerge ((lookupRend rs "720p").map Rendition.path)
      ((lookupRend rs "360p").map Rendition.path),
    playbackUrl := oMerge ((lookupRend rs "720p").map Rendition.playbackUrl)
      ((lookupRend rs "360p").map Rendition.playbackUrl) }

/-- State of the rendition loop: renditions recorded so far, `localOutputs`
(pushed only after a successful upload), all temp files created so far, and
`none` until a step throws. -/
structure LoopOut where
  renditions : List (String × Rendition)
  localOutputs : List String
  created : List String
  err : Option String

/-- The `for (const height of renditionHeights)` loop: transcode to a local
file, upload it, record the rendition; the first throw aborts the loop. -/
def processHeights (cfg : WorkerConfig) (oc : Oracle) (p : JobMsg) (tb : String) :
    List Nat → List (String × Rendition) → List String → List String → LoopOut
  | [], rs, outs, cr => ⟨rs, outs, cr, none⟩
  | h :: rest, rs, outs, cr =>
    match oc.transcodeOk h with
    | some e => ⟨rs, outs, cr, some e⟩
    | none =>
      let op := localOutputPathW cfg p h
      match oc.uploadOk h with
      | some e => ⟨rs, outs, cr ++ [op], some e⟩
      | none =>
        processHeights cfg oc p tb rest
          (rs ++ [(toString h ++ "p", mkRendition tb p h)])
          (outs ++ [op]) (cr ++ [op])

/-- Store, created/deleted temp files and error of the try block from the
`processing` merge on (the download, the rendition loop, the `ready` merge
and the success-path cleanup). -/
structure RunOutcome where
  store : Store
  created : List String
  deleted : List String
  err : Option String

/-- The body of the try block of the handler after payload validation and
target-bucket resolution. -/
def attempt (cfg : WorkerConfig) (oc : Oracle) (p : JobMsg) (tb : String) (s : Store) :
    RunOutcome :=
  let s1 := setMerge s p.videoId (processingUpdate p)
  match oc.downloadOk with
  | some e => ⟨s1, [], [], some e⟩
  | none =>
    let inp := localInputPath cfg p
    let lo := processHeights cfg oc p tb renditionHeights [] [] [inp]
    match lo.err with
    | some e => ⟨s1, lo.created, [], some e⟩
    | none =>
      let s2 := setMerge s1 p.videoId (readyUpdate lo.renditions)
      ⟨s2, lo.created, inp :: lo.localOutputs, none⟩

/-- The catch handler: re-parse the body to recover a video id; when that
succeeds, merge `status=failed` with the error message; always answer 500.
It deletes no temporary file. -/
def catchHandler (req : WorkerRequest) (msg : String) (store : Store)
    (created deleted : List String) : WorkerResult :=
  match parsePubSubPayload req.body with
  | Except.ok p =>
    ⟨setMerge store p.videoId (failedUpdate msg), 500, "Processing failed: " ++ msg,
     created, deleted⟩
  | Except.error _ => ⟨store, 500, "Processing failed: " ++ msg, created, deleted⟩

/-- The `/process-video` handler (`app.post('/process-video')`,
`video-processing-service/src/index.ts` lines 86-175). -/
def handleJob (cfg : WorkerConfig) (oc : Oracle) (req : WorkerRequest) (s : Store) :
    WorkerResult :=
  if authPasses cfg req then
    match parsePubSubPayload req.body with
    | Except.error msg => catchHandler req msg s [] []
    | Except.ok p =>
      match resolveTargetBucket p cfg with
      | none => ⟨s, 500, "OUTPUT_BUCKET is not configured", [], []⟩
      | some tb =>
        let o := attempt cfg oc p tb s
        match o.err with
        | none => ⟨o.store, 200, "processed", o.created, o.deleted⟩
        | some msg => catchHandler req msg o.store o.created o.deleted
  else ⟨s, 401, "Unauthorized", [], []⟩

/-! ## Store lemmas -/

theorem getDoc_setMerge (s : Store) (id id' : String) (u : VideoDoc) :
    getDoc (setMerge s id u) id' =
      if id' = id then some (mergeDoc ((getDoc s id).getD emptyDoc) u) else getDoc s id' := by
  induction s with
  | nil =>
    by_cases h : id' = id
    · subst h
      simp [setMerge, getDoc]
    · simp [setMerge, getDoc, h, Ne.symm h]
  | cons kv rest ih =>
    obtain ⟨k, d⟩ := kv
    by_cases h1 : k = id
    · subst h1
      by_cases h2 : id' = k
      · subst h2
        simp [setMerge, getDoc]
      · simp [setMerge, getDoc, h2, Ne.symm h2]
    · by_cases h2 : k = id'
      · subst h2
        have hne : ¬ k = id := h1
        simp [setMerge, getDoc, h1, hne]
      · simp [setMerge, getDoc, h1, h2, ih]

theorem getDoc_setDoc (s : Store) (id id' : String) (u : VideoDoc) :
    getDoc (setDoc s id u) id' = if id' = id then some u else getDoc s id' := by
  induction s with
  | nil =>
    by_cases h : id' = id
    · subst h
      simp [setDoc, getDoc]
    · simp [setDoc, getDoc, h, Ne.symm h]
  | cons kv rest ih =>
    obtain ⟨k, d⟩ := kv
    by_cases h1 : k = id
    · subst h1
      by_cases h2 : id' = k
      · subst h2
        simp [setDoc, getDoc]
      · simp [setDoc, getDoc, h2, Ne.symm h2]
    · by_cases h2 : k = id'
      · subst h2
        have hne : ¬ k = id := h1
        simp [setDoc, getDoc, h1, hne]
      · simp [setDoc, getDoc, h1, h2, ih]

/-! ## Worker characterization -/

/-- The first throw an attempt hits (download, then per ascending height
transcode before upload), `none` when every step succeeds. -/
def firstFailure (oc : Oracle) : Option String :=
  match oc.downloadOk with
  | some m => some m
  | none =>
    match oc.transcodeOk 360 with
    | some m => some m
    | none =>
      match oc.uploadOk 360 with
      | some m => some m
      | none =>
        match oc.transcodeOk 720 with
        | some m => some m
        | none => oc.uploadOk 720

/-- The rendition map a fully successful attempt records. -/
def fullRenditions (p : JobMsg) (tb : String) : List (String × Rendition) :=
  renditionHeights.map (fun h => (toString h ++ "p", mkRendition tb p h))

/-- The document a finished attempt leaves under the payload's video id:
the stored document (or a fresh one) merged with the `processing` update and
then with either the `failed` or the `ready` update. -/
theorem handleJob_spec (cfg : WorkerConfig) (oc : Oracle) (req : WorkerRequest) (s : Store)
    (p : JobMsg) (tb : String)
    (hp : parsePubSubPayload req.body = Except.ok p)
    (ha : authPasses cfg req = true)
    (htb : resolveTargetBucket p cfg = some tb) :
    ∃ d, getDoc (handleJob cfg oc req s).store p.videoId = some d ∧
      ((∃ m, firstFailure oc = some m ∧
          d = mergeDoc (mergeDoc ((getDoc s p.videoId).getD emptyDoc) (processingUpdate p))
                (failedUpdate m)) ∨
       (firstFailure oc = none ∧
          d = mergeDoc (mergeDoc ((getDoc s p.videoId).getD emptyDoc) (processingUpdate p))
                (readyUpdate (fullRenditions p tb)))) := by
  unfold handleJob
  simp only [ha, hp, htb, if_true, attempt]
  cases hd : oc.downloadOk with
  | some m =>
    simp only [catchHandler, hp]
    refine ⟨_, ?_, Or.inl ⟨m, ?_, rfl⟩⟩
    · simp [getDoc_setMerge]
    · simp [firstFailure, hd]
  | none =>
    simp only [renditionHeights, processHeights]
    cases h1 : oc.transcodeOk 360 with
    | some m =>
      simp only [catchHandler, hp]
      refine ⟨_, ?_, Or.inl ⟨m, ?_, rfl⟩⟩
      · simp [getDoc_setMerge]
      · simp [firstFailure, hd, h1]
    | none =>
      cases h2 : oc.uploadOk 360 with
      | some m =>
        simp only [catchHandler, hp]
        refine ⟨_, ?_, Or.inl ⟨m, ?_, rfl⟩⟩
        · simp [getDoc_setMerge]
        · simp [firstFailure, hd, h1, h2]
      | none =>
        cases h3 : oc.transcodeOk 720 with
        | some m =>
          simp only [catchHandler, hp]
          refine ⟨_, ?_, Or.inl ⟨m, ?_, rfl⟩⟩
          · simp [getDoc_setMerge]
          · simp [firstFailure, hd, h1, h2, h3]
        | none =>
          cases h4 : oc.uploadOk 720 with
          | some m =>
            simp only [catchHandler, hp]
            refine ⟨_, ?_, Or.inl ⟨m, ?_, rfl⟩⟩
            · simp [getDoc_setMerge]
            · simp [firstFailure, hd, h1, h2, h3, h4]
          | none =>
            refine ⟨_, ?_, Or.inr ⟨?_, rfl⟩⟩
            · simp [getDoc_setMerge, fullRenditions, renditionHeights]
            · simp [firstFailure, hd, h1, h2, h3, h4]

/-! ## Merge field lemmas -/

theorem mergeDoc_failed_status (d : VideoDoc) (m : String) :
    (mergeDoc d (failedUpdate m)).status = some "failed" := rfl

theorem mergeDoc_failed_error (d : VideoDoc) (m : String) :
    (mergeDoc d (failedUpdate m)).error = some m := rfl

theorem mergeDoc_failed_renditions (d : VideoDoc) (m : String) :
    (mergeDoc d (failedUpdate m)).renditions = d.renditions := rfl

theorem mergeDoc_failed_rawPath (d : VideoDoc) (m : String) :
    (mergeDoc d (failedUpdate m)).rawPath = d.rawPath := rfl

theorem mergeDoc_processing_rawPath (d : VideoDoc) (p : JobMsg) :
    (mergeDoc d (processingUpdate p)).rawPath =
      some ("gs://" ++ p.inputBucket ++ "/" ++ p.inputObject) := rfl

theorem mergeDoc_processing_error (d : VideoDoc) (p : JobMsg) :
    (mergeDoc d (processingUpdate p)).error = d.error := rfl

theorem mergeDoc_processing_renditions (d : VideoDoc) (p : JobMsg) :
    (mergeDoc d (processingUpdate p)).renditions = d.renditions := rfl

theorem mergeDoc_ready_status (d : VideoDoc) (rs : List (String × Rendition)) :
    (mergeDoc d (readyUpdate rs)).status = some "ready" := rfl

theorem mergeDoc_ready_error (d : VideoDoc) (rs : List (String × Rendition)) :
    (mergeDoc d (readyUpdate rs)).error = d.error := rfl

theorem mergeDoc_ready_rawPath (d : VideoDoc) (rs : List (String × Rendition)) :
    (mergeDoc d (readyUpdate rs)).rawPath = d.rawPath := rfl

theorem mergeDoc_ready_renditions (d : VideoDoc) (rs : List (String × Rendition)) :
    (mergeDoc d (readyUpdate rs)).renditions =
      some (match d.renditions with
            | none => rs
            | some o => mergeRenditions o rs) := by
  cases h : d.renditions <;> simp [mergeDoc, readyUpdate, h]

theorem hasRendKey_mergeRenditions (o nu : List (String × Rendition)) (k : String)
    (hk : hasRendKey nu k = true) : hasRendKey (mergeRenditions o nu) k = true := by
  simp only [hasRendKey, mergeRenditions, List.any_append]
  simp only [hasRendKey] at hk
  simp [hk]

theorem mergeRenditions_ne_nil (o nu : List (String × Rendition)) (h : nu ≠ []) :
    mergeRenditions o nu ≠ [] := by
  simp [mergeRenditions, h]

/-! ## Concrete fixtures -/

/-- Dispatcher environment used in concrete runs. -/
def cfgF : FnConfig := ⟨some "raw", some "out", some "topic"⟩

/-- Worker environment used in concrete runs (no shared token). -/
def wCfg : WorkerConfig := ⟨some "out", none, 0⟩

/-- The job request the dispatcher derives for the fixture record. -/
def reqV1 : WorkerRequest := ⟨none, some ⟨"v1", "raw", "raw/v1-clip.mp4", none⟩⟩

/-- The fixture payload of `reqV1`. -/
def payloadV1 : JobMsg := ⟨"v1", "raw", "raw/v1-clip.mp4", none⟩

/-- All external steps succeed. -/
def ocAllOk : Oracle := ⟨none, fun _ => none, fun _ => none⟩

/-- The transcoder fails at height 720 after 360 succeeded. -/
def ocFail720 : Oracle :=
  ⟨none, fun h => if h = 720 then some "ffmpeg exited with code 1" else none, fun _ => none⟩

/-- Store after creating the fixture record `v1`. -/
def storeCreated : Store :=
  (createVideo cfgF (some ("u1", "u1@example.com")) ⟨"My clip", none, "clip.mp4"⟩ "v1" []).store

/-- Store after a fully successful processing run of `v1`. -/
def storeReady : Store := (handleJob wCfg ocAllOk reqV1 storeCreated).store

/-- Store after re-processing `v1` with the 720p transcode failing. -/
def storeRefailed : Store := (handleJob wCfg ocFail720 reqV1 storeReady).store

/-! ## C1 -/

/-- C1: for every syntactically valid job payload (accepted by
`parsePubSubPayload`), an authorized `handleJob` invocation with a resolvable
output bucket leaves the payload's video record with status exactly one of
`ready` — with a renditions map covering the configured resolution set — or
`failed` with a non-empty error message; it is never left in `processing`
(underlying I/O failures are assumed to carry non-empty messages). -/
theorem handleJob_terminal_status (cfg : WorkerConfig) (oc : Oracle) (req : WorkerRequest)
    (s : Store) (p : JobMsg) (tb : String)
    (hp : parsePubSubPayload req.body = Except.ok p)
    (ha : authPasses cfg req = true)
    (htb : resolveTargetBucket p cfg = some tb)
    (hmsg : ∀ m, firstFailure oc = some m → m ≠ "") :
    ∃ d, getDoc (handleJob cfg oc req s).store p.videoId = some d ∧
      d.status ≠ some "processing" ∧
      ((d.status = some "ready" ∧
          ∀ h ∈ renditionHeights, hasRendKey (d.renditions.getD []) (toString h ++ "p") = true) ∨
       (d.status = some "failed" ∧ ∃ e, d.error = some e ∧ e ≠ "")) := by
  obtain ⟨d, hget, hcase⟩ := handleJob_spec cfg oc req s p tb hp ha htb
  refine ⟨d, hget, ?_, ?_⟩
  · rcases hcase with ⟨m, _, hd⟩ | ⟨_, hd⟩ <;> subst hd <;> simp [mergeDoc_failed_status,
      mergeDoc_ready_status]
  · rcases hcase with ⟨m, hm, hd⟩ | ⟨_, hd⟩
    · subst hd
      exact Or.inr ⟨mergeDoc_failed_status _ _, m, mergeDoc_failed_error _ _, hmsg m hm⟩
    · subst hd
      refine Or.inl ⟨mergeDoc_ready_status _ _, ?_⟩
      intro h hh
      rw [mergeDoc_ready_renditions]
      have hkey : hasRendKey (fullRenditions p tb) (toString h ++ "p") = true := by
        simp only [renditionHeights, List.mem_cons, List.mem_singleton] at hh
        rcases hh with rfl | hh
        · simp [fullRenditions, renditionHeights, hasRendKey]
        · rcases hh with rfl | hh
          · simp [fullRenditions, renditionHeights, hasRendKey]
          · simp at hh
      cases ho : (mergeDoc ((getDoc s p.videoId).getD emptyDoc) (processingUpdate p)).renditions with
      | none => simpa using hkey
      | some o => simpa using hasRendKey_mergeRenditions o _ _ hkey

/-- Witness for C1 at the fixture job on the empty store with every external
step succeeding. -/
theorem handleJob_terminal_status_witness :
    ∃ d, getDoc (handleJob wCfg ocAllOk reqV1 []).store payloadV1.videoId = some d ∧
      d.status ≠ some "processing" ∧
      ((d.status = some "ready" ∧
          ∀ h ∈ renditionHeights,
            hasRendKey (d.renditions.getD []) (toString h ++ "p") = true) ∨
       (d.status = some "failed" ∧ ∃ e, d.error = some e ∧ e ≠ "")) :=
  handleJob_terminal_status wCfg ocAllOk reqV1 [] payloadV1 "out" rfl rfl rfl
    (fun m hm => by simp [firstFailure, ocAllOk] at hm)

/-! ## C2 -/

/-- C2: when, in one `handleJob` invocation, the 720p step (transcode or
upload) throws after the 360p rendition succeeded, the record transitions to
`failed` with a non-empty error message and its `renditions` field receives
no entry from this attempt — it is exactly what it was before the
invocation (in particular no partial `360p` key is committed). -/
theorem handleJob_no_partial_renditions (cfg : WorkerConfig) (oc : Oracle)
    (req : WorkerRequest) (s : Store) (p : JobMsg) (tb : String) (m : String)
    (hp : parsePubSubPayload req.body = Except.ok p)
    (ha : authPasses cfg req = true)
    (htb : resolveTargetBucket p cfg = some tb)
    (hdl : oc.downloadOk = none)
    (h360t : oc.transcodeOk 360 = none)
    (h360u : oc.uploadOk 360 = none)
    (h720 : oc.transcodeOk 720 = some m ∨ (oc.transcodeOk 720 = none ∧ oc.uploadOk 720 = some m))
    (hm : m ≠ "") :
    ∃ d, getDoc (handleJob cfg oc req s).store p.videoId = some d ∧
      d.status = some "failed" ∧
      (∃ e, d.error = some e ∧ e ≠ "") ∧
      d.renditions = ((getDoc s p.videoId).getD emptyDoc).renditions := by
  obtain ⟨d, hget, hcase⟩ := handleJob_spec cfg oc req s p tb hp ha htb
  have hff : firstFailure oc = some m := by
    rcases h720 with h720 | ⟨h720, h720u⟩
    · simp [firstFailure, hdl, h360t, h360u, h720]
    · simp [firstFailure, hdl, h360t, h360u, h720, h720u]
  rcases hcase with ⟨m', hm', hd⟩ | ⟨hnone, _⟩
  · rw [hff] at hm'
    obtain rfl : m = m' := by injection hm'
    subst hd
    refine ⟨_, hget, mergeDoc_failed_status _ _, ⟨m, mergeDoc_failed_error _ _, hm⟩, ?_⟩
    rw [mergeDoc_failed_renditions, mergeDoc_processing_renditions]
  · rw [hff] at hnone
    cases hnone

/-- Witness for C2: the fixture job run against the freshly created record
with the 720p transcode failing. -/
theorem handleJob_no_partial_renditions_witness :
    ∃ d, getDoc (handleJob wCfg ocFail720 reqV1 storeCreated).store payloadV1.videoId = some d ∧
      d.status = some "failed" ∧
      (∃ e, d.error = some e ∧ e ≠ "") ∧
      d.renditions = ((getDoc storeCreated payloadV1.videoId).getD emptyDoc).renditions :=
  handleJob_no_partial_renditions wCfg ocFail720 reqV1 storeCreated payloadV1 "out"
    "ffmpeg exited with code 1" rfl rfl rfl rfl rfl rfl (Or.inl rfl) (by decide)

/-! ## Prefix stripping -/

theorem isPrefixOf_append_drop (pat : List Char) :
    ∀ l : List Char, pat.isPrefixOf l = true → pat ++ l.drop pat.length = l := by
  induction pat with
  | nil => intro l _; simp
  | cons a as ih =>
    intro l h
    cases l with
    | nil => simp [List.isPrefixOf] at h
    | cons b bs =>
      simp only [List.isPrefixOf, Bool.and_eq_true, beq_iff_eq] at h
      obtain ⟨rfl, h2⟩ := h
      simpa using ih bs h2

theorem replaceFirstChars_isPrefixOf (pat l : List Char) (h : pat.isPrefixOf l = true) :
    pat ++ replaceFirstChars pat l = l := by
  cases l with
  | nil =>
    cases pat with
    | nil => rfl
    | cons a as => simp [List.isPrefixOf] at h
  | cons c rest =>
    simp only [replaceFirstChars, h, if_true]
    exact isPrefixOf_append_drop pat (c :: rest) h

theorem strStartsWith_append_strip (s pat : String) (h : strStartsWith s pat = true) :
    pat ++ replaceFirstStr s pat = s := by
  cases s with
  | mk l =>
    cases pat with
    | mk pl =>
      show String.mk (pl ++ replaceFirstChars pl l) = String.mk l
      exact congrArg String.mk (replaceFirstChars_isPrefixOf pl l h)

/-! ## C4 -/

/-- C4: a finalize notification for the raw object of a record whose status
is already `queued`, `processing` or `ready` is a duplicate: the trigger
changes nothing in the store and publishes no job. -/
theorem onRawVideoUploaded_duplicate_noop (cfg : FnConfig) (ev : StorageEvent) (s : Store)
    (rb vid : String) (doc : VideoDoc)
    (hrb : cfg.rawBucket = some rb)
    (hb : ev.bucket = rb)
    (_hbne : ev.bucket ≠ "")
    (hn : strStartsWith ev.name "raw/" = true)
    (hres : resolveUploadVideoId ev s = some vid)
    (hdoc : getDoc s vid = some doc)
    (hst : doc.status = some "queued" ∨ doc.status = some "processing" ∨
      doc.status = some "ready") :
    (onRawVideoUploaded cfg ev s).store = s ∧ (onRawVideoUploaded cfg ev s).trace = [] := by
  have hne : ev.name ≠ "" := by
    intro he
    rw [he] at hn
    exact absurd hn (by decide)
  rcases hst with hst | hst | hst <;>
    simp [onRawVideoUploaded, hrb, hb, hne, hn, hres, hdoc, hst]

/-- Witness for C4: a duplicate finalize notification for the fixture raw
object after the record is already `ready`. -/
theorem onRawVideoUploaded_duplicate_noop_witness :
    (onRawVideoUploaded cfgF ⟨"raw", "raw/v1-clip.mp4"⟩ storeReady).store = storeReady ∧
      (onRawVideoUploaded cfgF ⟨"raw", "raw/v1-clip.mp4"⟩ storeReady).trace = [] :=
  onRawVideoUploaded_duplicate_noop cfgF ⟨"raw", "raw/v1-clip.mp4"⟩ storeReady "raw" "v1"
    ((getDoc storeReady "v1").getD emptyDoc) rfl rfl (by decide) (by decide) (by decide)
    (by decide) (Or.inr (Or.inr (by decide)))

/-! ## C5 -/

/-- C5: for an existing record whose `rawPath` lies in the configured raw
bucket, an authorized `POST /videos/:videoId/process` first merges
`status=queued` into the record and only then publishes exactly one job
message whose `inputBucket` is the raw bucket and whose `inputObject` is the
`rawPath` with the `gs://<bucket>/` scheme stripped. -/
theorem requestProcessing_merge_then_publish (cfg : FnConfig) (videoId : String) (s : Store)
    (rb rp : String) (doc : VideoDoc)
    (hrb : cfg.rawBucket = some rb)
    (htopic : cfg.processingTopic ≠ none)
    (hdoc : getDoc s videoId = some doc)
    (hrp : doc.rawPath = some rp)
    (hpref : strStartsWith rp ("gs://" ++ rb ++ "/") = true) :
    (requestProcessing cfg true videoId s).store = setMerge s videoId queuedUpdate ∧
      (requestProcessing cfg true videoId s).trace =
        [Effect.mergeW videoId queuedUpdate,
         Effect.publishJob
           ⟨videoId, rb, replaceFirstStr rp ("gs://" ++ rb ++ "/"), cfg.outputBucket⟩] ∧
      ("gs://" ++ rb ++ "/") ++ replaceFirstStr rp ("gs://" ++ rb ++ "/") = rp := by
  cases htop : cfg.processingTopic with
  | none => exact absurd htop htopic
  | some topic =>
    refine ⟨?_, ?_, strStartsWith_append_strip rp _ hpref⟩ <;>
      simp [requestProcessing, hrb, hdoc, hrp, hpref, htop]

/-- Witness for C5: the fixture record freshly created in the `raw` bucket
(scenario A of the spec). -/
theorem requestProcessing_merge_then_publish_witness :
    (requestProcessing cfgF true "v1" storeCreated).store =
        setMerge storeCreated "v1" queuedUpdate ∧
      (requestProcessing cfgF true "v1" storeCreated).trace =
        [Effect.mergeW "v1" queuedUpdate,
         Effect.publishJob
           ⟨"v1", "raw", replaceFirstStr "gs://raw/raw/v1-clip.mp4" ("gs://" ++ "raw" ++ "/"),
            cfgF.outputBucket⟩] ∧
      ("gs://" ++ "raw" ++ "/") ++ replaceFirstStr "gs://raw/raw/v1-clip.mp4" ("gs://" ++ "raw" ++ "/") =
        "gs://raw/raw/v1-clip.mp4" :=
  requestProcessing_merge_then_publish cfgF "v1" storeCreated "raw" "gs://raw/raw/v1-clip.mp4"
    ((getDoc storeCreated "v1").getD emptyDoc) rfl (by decide) (by decide) (by decide) (by decide)

/-! ## C10 -/

/-- C10: a syntactically valid job whose video id matches no existing record
is not rejected with `NotFound`: the worker's merge-writes create a fresh
document under that id, ending with the job-derived `rawPath` and a terminal
`ready` or `failed` status. -/
theorem handleJob_creates_missing_record (cfg : WorkerConfig) (oc : Oracle)
    (req : WorkerRequest) (s : Store) (p : JobMsg) (tb : String)
    (hp : parsePubSubPayload req.body = Except.ok p)
    (ha : authPasses cfg req = true)
    (htb : resolveTargetBucket p cfg = some tb)
    (_hmiss : getDoc s p.videoId = none) :
    ∃ d, getDoc (handleJob cfg oc req s).store p.videoId = some d ∧
      d.rawPath = some ("gs://" ++ p.inputBucket ++ "/" ++ p.inputObject) ∧
      (d.status = some "ready" ∨ d.status = some "failed") := by
  obtain ⟨d, hget, hcase⟩ := handleJob_spec cfg oc req s p tb hp ha htb
  refine ⟨d, hget, ?_, ?_⟩
  · rcases hcase with ⟨m, _, hd⟩ | ⟨_, hd⟩ <;> subst hd
    · rw [mergeDoc_failed_rawPath, mergeDoc_processing_rawPath]
    · rw [mergeDoc_ready_rawPath, mergeDoc_processing_rawPath]
  · rcases hcase with ⟨m, _, hd⟩ | ⟨_, hd⟩ <;> subst hd
    · exact Or.inr (mergeDoc_failed_status _ _)
    · exact Or.inl (mergeDoc_ready_status _ _)

/-- Witness for C10: the fixture job on the empty store. -/
theorem handleJob_creates_missing_record_witness :
    ∃ d, getDoc (handleJob wCfg ocAllOk reqV1 []).store payloadV1.videoId = some d ∧
      d.rawPath = some ("gs://" ++ payloadV1.inputBucket ++ "/" ++ payloadV1.inputObject) ∧
      (d.status = some "ready" ∨ d.status = some "failed") :=
  handleJob_creates_missing_record wCfg ocAllOk reqV1 [] payloadV1 "out" rfl rfl rfl rfl

/-! ## C6 -/

/-- A record that failed in an earlier attempt, carrying an error message. -/
def storeFailedPrior : Store :=
  [("v1",
    { emptyDoc with
      status := some "failed",
      error := some "boom",
      rawPath := some "gs://raw/raw/v1-clip.mp4" })]

/-- Counterexample to C6: the `processing` merge writes only `status` and
`rawPath`, so after a fully successful re-processing of a previously failed
record the stale error message `boom` is still present on the `ready`
record — the claim's "clears any previous error" does not hold. -/
theorem processing_merge_error_cex :
    ((getDoc (handleJob wCfg ocAllOk reqV1 storeFailedPrior).store "v1").getD emptyDoc).status =
        some "ready" ∧
      ((getDoc (handleJob wCfg ocAllOk reqV1 storeFailedPrior).store "v1").getD
            emptyDoc).error = some "boom" := by
  decide

/-- C6 as amended: the `processing` merge does not clear the `error` field;
a successful `handleJob` run leaves the record `ready` with the `error`
field exactly as it was before the invocation. -/
theorem handleJob_retains_error (cfg : WorkerConfig) (oc : Oracle) (req : WorkerRequest)
    (s : Store) (p : JobMsg) (tb : String) (d0 : VideoDoc)
    (hp : parsePubSubPayload req.body = Except.ok p)
    (ha : authPasses cfg req = true)
    (htb : resolveTargetBucket p cfg = some tb)
    (hok : firstFailure oc = none)
    (hd0 : getDoc s p.videoId = some d0) :
    ∃ d, getDoc (handleJob cfg oc req s).store p.videoId = some d ∧
      d.status = some "ready" ∧ d.error = d0.error := by
  obtain ⟨d, hget, hcase⟩ := handleJob_spec cfg oc req s p tb hp ha htb
  rcases hcase with ⟨m, hm, _⟩ | ⟨_, hd⟩
  · rw [hok] at hm
    cases hm
  · subst hd
    refine ⟨_, hget, mergeDoc_ready_status _ _, ?_⟩
    rw [mergeDoc_ready_error, mergeDoc_processing_error, hd0]
    rfl

/-- Witness for C6's amended theorem: re-processing the failed fixture
record retains `boom`. -/
theorem handleJob_retains_error_witness :
    ∃ d, getDoc (handleJob wCfg ocAllOk reqV1 storeFailedPrior).store "v1" = some d ∧
      d.status = some "ready" ∧
      d.error = (VideoDoc.error
        { emptyDoc with
          status := some "failed",
          error := some "boom",
          rawPath := some "gs://raw/raw/v1-clip.mp4" }) :=
  handleJob_retains_error wCfg ocAllOk reqV1 storeFailedPrior payloadV1 "out"
    { emptyDoc with
      status := some "failed",
      error := some "boom",
      rawPath := some "gs://raw/raw/v1-clip.mp4" }
    rfl rfl rfl rfl rfl

/-! ## C7 -/

/-- Counterexample to C7: when the 720p transcode throws, the invocation
ends in the catch handler, which deletes nothing — the downloaded source and
the 360p local output are left behind, so the temporary files are not
deleted "regardless of outcome". -/
theorem cleanup_unconditional_cex :
    (handleJob wCfg ocFail720 reqV1 storeCreated).created ≠ [] ∧
      (handleJob wCfg ocFail720 reqV1 storeCreated).deleted = [] := by
  decide

/-- C7 as amended: the handler deletes the attempt's local temporary files
exactly when the attempt ends successfully (HTTP 200) — on success it
deletes precisely the files it created, on any failure it deletes
nothing. -/
theorem cleanup_only_on_success (cfg : WorkerConfig) (oc : Oracle) (req : WorkerRequest)
    (s : Store) :
    (handleJob cfg oc req s).deleted =
      if (handleJob cfg oc req s).statusCode = 200 then (handleJob cfg oc req s).created
      else [] := by
  unfold handleJob
  cases hauth : authPasses cfg req
  · simp
  · cases hp : parsePubSubPayload req.body with
    | error msg =>
      unfold catchHandler
      rw [hp]
      simp
    | ok p =>
      cases htb : resolveTargetBucket p cfg with
      | none => simp [htb]
      | some tb =>
        simp only [htb, attempt]
        cases hd : oc.downloadOk with
        | some m =>
          unfold catchHandler
          rw [hp]
          simp
        | none =>
          simp only [renditionHeights, processHeights]
          cases h1 : oc.transcodeOk 360 with
          | some m =>
            unfold catchHandler
            rw [hp]
            simp
          | none =>
            cases h2 : oc.uploadOk 360 with
            | some m =>
              unfold catchHandler
              rw [hp]
              simp
            | none =>
              cases h3 : oc.transcodeOk 720 with
              | some m =>
                unfold catchHandler
                rw [hp]
                simp
              | none =>
                cases h4 : oc.uploadOk 720 with
                | some m =>
                  unfold catchHandler
                  rw [hp]
                  simp
                | none => simp

/-! ## C8 -/

/-- A record queued for processing with its `rawPath` set at creation. -/
def storeQueuedPrior : Store :=
  [("v1", { emptyDoc with status := some "queued", rawPath := some "gs://raw/raw/v1-clip.mp4" })]

/-- A job whose payload names a different bucket and object than the
record's stored `rawPath`. -/
def reqOtherBucket : WorkerRequest := ⟨none, some ⟨"v1", "other", "x.mp4", none⟩⟩

/-- Counterexample to C8: `handleJob`'s `processing` merge writes `rawPath`
from the job payload, so a job whose payload differs from the stored
`rawPath` mutates the field — it is not immutable after creation. -/
theorem rawPath_immutable_cex :
    ((getDoc storeQueuedPrior "v1").getD emptyDoc).rawPath = some "gs://raw/raw/v1-clip.mp4" ∧
      ((getDoc (handleJob wCfg ocAllOk reqOtherBucket storeQueuedPrior).store "v1").getD
            emptyDoc).rawPath = some "gs://other/x.mp4" := by
  decide

/-- C8 as amended: every completed `handleJob` attempt overwrites the
record's `rawPath` with `gs://<inputBucket>/<inputObject>` derived from the
job payload; the field is therefore unchanged exactly when the payload was
derived from the record's own `rawPath`, as dispatcher-published jobs
are. -/
theorem handleJob_writes_rawPath (cfg : WorkerConfig) (oc : Oracle) (req : WorkerRequest)
    (s : Store) (p : JobMsg) (tb : String)
    (hp : parsePubSubPayload req.body = Except.ok p)
    (ha : authPasses cfg req = true)
    (htb : resolveTargetBucket p cfg = some tb) :
    ∃ d, getDoc (handleJob cfg oc req s).store p.videoId = some d ∧
      d.rawPath = some ("gs://" ++ p.inputBucket ++ "/" ++ p.inputObject) := by
  obtain ⟨d, hget, hcase⟩ := handleJob_spec cfg oc req s p tb hp ha htb
  refine ⟨d, hget, ?_⟩
  rcases hcase with ⟨m, _, hd⟩ | ⟨_, hd⟩ <;> subst hd
  · rw [mergeDoc_failed_rawPath, mergeDoc_processing_rawPath]
  · rw [mergeDoc_ready_rawPath, mergeDoc_processing_rawPath]

/-- Witness for C8's amended theorem: the mismatching fixture job rewrites
`rawPath` to its own input location. -/
theorem handleJob_writes_rawPath_witness :
    ∃ d, getDoc (handleJob wCfg ocAllOk reqOtherBucket storeQueuedPrior).store "v1" = some d ∧
      d.rawPath = some ("gs://" ++ "other" ++ "/" ++ "x.mp4") :=
  handleJob_writes_rawPath wCfg ocAllOk reqOtherBucket storeQueuedPrior
    ⟨"v1", "other", "x.mp4", none⟩ "out" rfl rfl rfl

/-! ## C9 -/

/-- A push body whose decoded payload has an empty `inputObject` (scenario E:
missing required field). -/
def reqMalformed : WorkerRequest := ⟨none, some ⟨"v1", "raw", "", none⟩⟩

/-- Counterexample to C9: a malformed payload is rejected, but with HTTP 500
(`Processing failed: ...`), which is a server-error-class response, not a
`BadRequest`-class (4xx) one; the store is indeed untouched. -/
theorem malformed_badrequest_cex :
    (handleJob wCfg ocAllOk reqMalformed storeCreated).statusCode = 500 ∧
      ¬(400 ≤ (handleJob wCfg ocAllOk reqMalformed storeCreated).statusCode ∧
          (handleJob wCfg ocAllOk reqMalformed storeCreated).statusCode < 500) ∧
      (handleJob wCfg ocAllOk reqMalformed storeCreated).store = storeCreated := by
  decide

/-- C9 as amended: a malformed job payload (missing `message.data`, or any of
`videoId`/`inputBucket`/`inputObject` missing or empty) makes an authorized
invocation answer HTTP 500 with body `Processing failed: <parse error>`, and
no video record is mutated in any way (the whole store is unchanged). -/
theorem malformed_payload_rejected (cfg : WorkerConfig) (oc : Oracle) (req : WorkerRequest)
    (s : Store) (msg : String)
    (ha : authPasses cfg req = true)
    (hp : parsePubSubPayload req.body = Except.error msg) :
    (handleJob cfg oc req s).store = s ∧
      (handleJob cfg oc req s).statusCode = 500 ∧
      (handleJob cfg oc req s).body = "Processing failed: " ++ msg := by
  unfold handleJob catchHandler
  simp [ha, hp]

/-- Witness for C9's amended theorem at the malformed fixture request. -/
theorem malformed_payload_rejected_witness :
    (handleJob wCfg ocAllOk reqMalformed storeCreated).store = storeCreated ∧
      (handleJob wCfg ocAllOk reqMalformed storeCreated).statusCode = 500 ∧
      (handleJob wCfg ocAllOk reqMalformed storeCreated).body =
        "Processing failed: " ++ "Job payload is missing required fields" :=
  malformed_payload_rejected wCfg ocAllOk reqMalformed storeCreated
    "Job payload is missing required fields" rfl rfl

/-! ## C3: reachable stores -/

/-- Stores reachable from the empty collection through the dispatcher and
worker operations (record creation, explicit processing requests, finalize
notifications, worker jobs), under arbitrary environments, callers and
external-I/O outcomes. -/
inductive Reachable : Store → Prop
  | init : Reachable []
  | create (cfg : FnConfig) (user : Option (String × String)) (body : CreateBody)
      (newId : String) (s : Store) :
      Reachable s → Reachable (createVideo cfg user body newId s).store
  | request (cfg : FnConfig) (authed : Bool) (videoId : String) (s : Store) :
      Reachable s → Reachable (requestProcessing cfg authed videoId s).store
  | finalize (cfg : FnConfig) (ev : StorageEvent) (s : Store) :
      Reachable s → Reachable (onRawVideoUploaded cfg ev s).store
  | job (cfg : WorkerConfig) (oc : Oracle) (req : WorkerRequest) (s : Store) :
      Reachable s → Reachable (handleJob cfg oc req s).store

/-- Every `ready` record carries a non-empty renditions map. -/
def storeReadyInv (s : Store) : Prop :=
  ∀ id d, getDoc s id = some d → d.status = some "ready" → d.renditions.getD [] ≠ []

theorem setMerge_pres_inv (s : Store) (id : String) (u : VideoDoc)
    (h : storeReadyInv s)
    (hu : ∀ old : VideoDoc, (mergeDoc old u).status = some "ready" →
      (mergeDoc old u).renditions.getD [] ≠ []) :
    storeReadyInv (setMerge s id u) := by
  intro id' d hget hst
  rw [getDoc_setMerge] at hget
  by_cases hc : id' = id
  · rw [if_pos hc] at hget
    injection hget with hd
    subst hd
    exact hu _ hst
  · rw [if_neg hc] at hget
    exact h id' d hget hst

theorem setDoc_pres_inv (s : Store) (id : String) (u : VideoDoc)
    (h : storeReadyInv s)
    (hu : u.status = some "ready" → u.renditions.getD [] ≠ []) :
    storeReadyInv (setDoc s id u) := by
  intro id' d hget hst
  rw [getDoc_setDoc] at hget
  by_cases hc : id' = id
  · rw [if_pos hc] at hget
    injection hget with hd
    subst hd
    exact hu hst
  · rw [if_neg hc] at hget
    exact h id' d hget hst

theorem merge_notReady_inv (u : VideoDoc) (x : String)
    (hx : u.status = some x) (hne : x ≠ "ready") :
    ∀ old : VideoDoc, (mergeDoc old u).status = some "ready" →
      (mergeDoc old u).renditions.getD [] ≠ [] := by
  intro old hst
  have hx' : (mergeDoc old u).status = some x := by
    show oMerge u.status old.status = some x
    rw [hx]
    rfl
  rw [hx'] at hst
  injection hst with hc
  exact absurd hc hne

theorem merge_ready_inv (rs : List (String × Rendition)) (hrs : rs ≠ []) :
    ∀ old : VideoDoc, (mergeDoc old (readyUpdate rs)).status = some "ready" →
      (mergeDoc old (readyUpdate rs)).renditions.getD [] ≠ [] := by
  intro old _
  rw [mergeDoc_ready_renditions]
  cases h : old.renditions with
  | none => simpa using hrs
  | some o => simpa using mergeRenditions_ne_nil o rs hrs

/-- `createVideo` either leaves the store unchanged or fully writes a fresh
`uploading` document. -/
theorem createVideo_store (cfg : FnConfig) (user : Option (String × String))
    (body : CreateBody) (newId : String) (s : Store) :
    (createVideo cfg user body newId s).store = s ∨
      ∃ u : VideoDoc, u.status = some "uploading" ∧
        (createVideo cfg user body newId s).store = setDoc s newId u := by
  unfold createVideo
  cases hrb : cfg.rawBucket with
  | none => exact Or.inl rfl
  | some rb =>
    cases user with
    | none => exact Or.inl rfl
    | some u =>
      obtain ⟨uid, email⟩ := u
      dsimp only
      by_cases ht : body.title = "" ∨ body.filename = ""
      · rw [if_pos ht]
        exact Or.inl rfl
      · rw [if_neg ht]
        exact Or.inr ⟨_, rfl, rfl⟩

/-- `requestProcessing` either leaves the store unchanged or merges the
`queued` update into the requested record. -/
theorem requestProcessing_store (cfg : FnConfig) (authed : Bool) (videoId : String)
    (s : Store) :
    (requestProcessing cfg authed videoId s).store = s ∨
      (requestProcessing cfg authed videoId s).store = setMerge s videoId queuedUpdate := by
  unfold requestProcessing
  split
  · split
    · exact Or.inl rfl
    · split
      · exact Or.inl rfl
      · split
        · exact Or.inl rfl
        · split
          · split
            · exact Or.inr rfl
            · exact Or.inr rfl
          · exact Or.inl rfl
  · exact Or.inl rfl

/-- `onRawVideoUploaded` either leaves the store unchanged or merges the
`queued` update into the resolved record. -/
theorem onRawVideoUploaded_store (cfg : FnConfig) (ev : StorageEvent) (s : Store) :
    (onRawVideoUploaded cfg ev s).store = s ∨
      ∃ vid, (onRawVideoUploaded cfg ev s).store = setMerge s vid queuedUpdate := by
  unfold onRawVideoUploaded
  split
  · exact Or.inl rfl
  · split
    · exact Or.inl rfl
    · split
      · exact Or.inl rfl
      · split
        · exact Or.inl rfl
        · split
          · exact Or.inl rfl
          · split
            · exact Or.inr ⟨_, rfl⟩
            · exact Or.inr ⟨_, rfl⟩

/-- `handleJob` either leaves the store unchanged, or merges `processing`
then `failed` into the payload's record, or merges `processing` then
`ready` with the full rendition map. -/
theorem handleJob_store_cases (cfg : WorkerConfig) (oc : Oracle) (req : WorkerRequest)
    (s : Store) :
    (handleJob cfg oc req s).store = s ∨
      ∃ p tb, parsePubSubPayload req.body = Except.ok p ∧
        resolveTargetBucket p cfg = some tb ∧
        ((∃ m, (handleJob cfg oc req s).store =
            setMerge (setMerge s p.videoId (processingUpdate p)) p.videoId (failedUpdate m)) ∨
         (handleJob cfg oc req s).store =
            setMerge (setMerge s p.videoId (processingUpdate p)) p.videoId
              (readyUpdate (fullRenditions p tb))) := by
  unfold handleJob
  cases hauth : authPasses cfg req
  · exact Or.inl rfl
  · cases hp : parsePubSubPayload req.body with
    | error msg =>
      unfold catchHandler
      rw [hp]
      exact Or.inl rfl
    | ok p =>
      cases htb : resolveTargetBucket p cfg with
      | none => simp [htb]
      | some tb =>
        refine Or.inr ⟨p, tb, rfl, htb, ?_⟩
        simp only [htb, attempt]
        cases hd : oc.downloadOk with
        | some m =>
          unfold catchHandler
          rw [hp]
          refine Or.inl ⟨m, ?_⟩
          simp
        | none =>
          simp only [renditionHeights, processHeights]
          cases h1 : oc.transcodeOk 360 with
          | some m =>
            unfold catchHandler
            rw [hp]
            refine Or.inl ⟨m, ?_⟩
            simp
          | none =>
            cases h2 : oc.uploadOk 360 with
            | some m =>
              unfold catchHandler
              rw [hp]
              refine Or.inl ⟨m, ?_⟩
              simp
            | none =>
              cases h3 : oc.transcodeOk 720 with
              | some m =>
                unfold catchHandler
                rw [hp]
                refine Or.inl ⟨m, ?_⟩
                simp
              | none =>
                cases h4 : oc.uploadOk 720 with
                | some m =>
                  unfold catchHandler
                  rw [hp]
                  refine Or.inl ⟨m, ?_⟩
                  simp
                | none =>
                  refine Or.inr ?_
                  simp [fullRenditions, renditionHeights]

theorem createVideo_pres (cfg : FnConfig) (user : Option (String × String)) (body : CreateBody)
    (newId : String) (s : Store) (h : storeReadyInv s) :
    storeReadyInv (createVideo cfg user body newId s).store := by
  rcases createVideo_store cfg user body newId s with hs | ⟨u, hu, hs⟩
  · rw [hs]
    exact h
  · rw [hs]
    refine setDoc_pres_inv s newId u h (fun hready => ?_)
    rw [hu] at hready
    exact absurd (Option.some.inj hready) (by decide)

theorem requestProcessing_pres (cfg : FnConfig) (authed : Bool) (videoId : String) (s : Store)
    (h : storeReadyInv s) : storeReadyInv (requestProcessing cfg authed videoId s).store := by
  rcases requestProcessing_store cfg authed videoId s with hs | hs
  · rw [hs]
    exact h
  · rw [hs]
    exact setMerge_pres_inv s videoId queuedUpdate h
      (merge_notReady_inv queuedUpdate "queued" rfl (by decide))

theorem onRawVideoUploaded_pres (cfg : FnConfig) (ev : StorageEvent) (s : Store)
    (h : storeReadyInv s) : storeReadyInv (onRawVideoUploaded cfg ev s).store := by
  rcases onRawVideoUploaded_store cfg ev s with hs | ⟨vid, hs⟩
  · rw [hs]
    exact h
  · rw [hs]
    exact setMerge_pres_inv s vid queuedUpdate h
      (merge_notReady_inv queuedUpdate "queued" rfl (by decide))

theorem handleJob_pres (cfg : WorkerConfig) (oc : Oracle) (req : WorkerRequest) (s : Store)
    (h : storeReadyInv s) : storeReadyInv (handleJob cfg oc req s).store := by
  rcases handleJob_store_cases cfg oc req s with hs | ⟨p, tb, _, _, hcase⟩
  · rw [hs]
    exact h
  · have hproc : storeReadyInv (setMerge s p.videoId (processingUpdate p)) :=
      setMerge_pres_inv s p.videoId (processingUpdate p) h
        (merge_notReady_inv (processingUpdate p) "processing" rfl (by decide))
    rcases hcase with ⟨m, hs⟩ | hs
    · rw [hs]
      exact setMerge_pres_inv _ p.videoId (failedUpdate m) hproc
        (merge_notReady_inv (failedUpdate m) "failed" rfl (by decide))
    · rw [hs]
      refine setMerge_pres_inv _ p.videoId (readyUpdate (fullRenditions p tb)) hproc
        (merge_ready_inv (fullRenditions p tb) ?_)
      simp [fullRenditions, renditionHeights]

/-- Counterexample to C3: the store obtained by creating `v1`, processing it
successfully (leaving it `ready` with two renditions) and re-processing it
with a failing 720p transcode is reachable, yet its record is `failed` while
still carrying the prior non-empty renditions map — so "renditions non-empty
iff status is ready" does not hold on reachable records. -/
theorem ready_renditions_iff_cex :
    Reachable storeRefailed ∧
      ((getDoc storeRefailed "v1").getD emptyDoc).status = some "failed" ∧
      ((getDoc storeRefailed "v1").getD emptyDoc).renditions.getD [] ≠ [] := by
  refine ⟨?_, by decide, by decide⟩
  exact Reachable.job wCfg ocFail720 reqV1 storeReady
    (Reachable.job wCfg ocAllOk reqV1 storeCreated
      (Reachable.create cfgF (some ("u1", "u1@example.com")) ⟨"My clip", none, "clip.mp4"⟩ "v1" []
        Reachable.init))

theorem reachable_storeReadyInv (s : Store) (hs : Reachable s) : storeReadyInv s := by
  induction hs with
  | init =>
    intro id0 d0 h0 _
    simp [getDoc] at h0
  | create cfg user body newId s0 hprev ih => exact createVideo_pres cfg user body newId s0 ih
  | request cfg a v s0 hprev ih => exact requestProcessing_pres cfg a v s0 ih
  | finalize cfg ev s0 hprev ih => exact onRawVideoUploaded_pres cfg ev s0 ih
  | job cfg oc req s0 hprev ih => exact handleJob_pres cfg oc req s0 ih

/-- C3 as amended: on every reachable store only the forward direction of
the claimed invariant holds — a record with status `ready` has a non-empty
renditions map.  The converse fails (see the counterexample): `failed` or
re-queued records may retain a non-empty renditions map from a prior
successful attempt, because the `failed` and `queued` merges do not touch
the `renditions` field. -/
theorem reachable_ready_renditions (s : Store) (hs : Reachable s) (id : String) (d : VideoDoc)
    (hget : getDoc s id = some d) (hready : d.status = some "ready") :
    d.renditions.getD [] ≠ [] :=
  reachable_storeReadyInv s hs id d hget hready

/-- Witness for C3's amended theorem: the reachable `ready` store of the
fixture run has a non-empty renditions map on `v1`. -/
theorem reachable_ready_renditions_witness :
    ((getDoc storeReady "v1").getD emptyDoc).renditions.getD [] ≠ [] :=
  reachable_ready_renditions storeReady
    (Reachable.job wCfg ocAllOk reqV1 storeCreated
      (Reachable.create cfgF (some ("u1", "u1@example.com")) ⟨"My clip", none, "clip.mp4"⟩ "v1" []
        Reachable.init))
    "v1" ((getDoc storeReady "v1").getD emptyDoc) (by decide) (by decide)
